import Mathlib

/-!
Shallow embedding of `twistedcaldav/scheduling/caldav.py` (class `ScheduleViaCalDAV`),
the CalDAV scheduling-message delivery engine, together with the pieces of
`twistedcaldav/stdconfig.py` configuration it reads.

External collaborators (the resource store, the implicit processor, the free-busy
interval collector, the iTIP auto-response executor) are modelled as per-recipient
oracles: each fallible call a recipient's delivery path makes is a field of the
`Recipient` record holding the call's outcome (`Except PyExc α`).  Python exception
handling is mirrored exactly: a `try/except SomeError` catches only the matching
constructor of `PyExc`; a bare `except:` catches every constructor; a call outside
any `try` propagates its error to the caller.
-/

namespace ScheduleViaCalDAV

/-- Exceptions that can cross the boundaries visible in `caldav.py`:
`AccessDeniedError` (caught at line 108), `ImplicitProcessorException`
(caught at line 159, carrying its `msg`), and any other exception
(matched only by a bare `except:`). -/
inductive PyExc where
  | accessDenied
  | implicitProcessorError (msg : String)
  | other (tag : String)
deriving DecidableEq, Repr

/-- Time interval with half-open semantics, for free-busy periods. -/
structure Period where
  startTime : Nat
  endTime : Nat
deriving DecidableEq, Repr

/-- Modelled from the spec: interval overlap with the requested time range
("accumulate matching intervals from that collection ... for the requested
time range"); the interval-matching primitive itself lives in the external
`report_common` collaborator, not under src/. -/
def overlapsPeriod (p range : Period) : Bool :=
  p.startTime < range.endTime && range.startTime < p.endTime

/-- Scheduling calendar object, as used by `caldav.py`:
`getOrganizerProperty()`, `resourceUID()`, `getAttendeeProperty(cuas)` and
`duplicate()` are the only operations invoked on it. -/
structure CalendarObject where
  organizerProp : Option String
  uid : String
  attendees : List String
deriving DecidableEq, Repr

/-- Modelled from the spec: `CalendarObject.getAttendeeProperty` lives in the
external iCalendar library (`twistedcaldav/ical.py`, not under src/); per the
spec it extracts "the calendar-object attendee property matching one of the
recipient's known calendar-user addresses". -/
def getAttendeeProperty (c : CalendarObject) (cuas : List String) : Option String :=
  c.attendees.find? (fun a => cuas.contains a)

/-- Modelled from the spec: `Component.duplicate()` produces "a fresh snapshot
(duplicate) of the scheduling calendar"; in a pure embedding the snapshot is
equal as a value to the original. -/
def duplicate (c : CalendarObject) : CalendarObject := c

/-- Calendar user as classified by the `isinstance` checks of `caldav.py`
(`LocalCalendarUser` carrying a principal, `RemoteCalendarUser`, or any
other kind from `cuaddress.py`). -/
inductive CalUser where
  | localUser (principalURL : String)
  | remoteUser
  | otherUser
deriving DecidableEq, Repr

/-- Protocol status attached to a response entry: `responsecode.OK`, or a
`Failure` wrapping `HTTPError(ErrorResponse(NOT_FOUND, ...))` resp.
`HTTPError(ErrorResponse(FORBIDDEN, ...))`. -/
inductive RespStatus where
  | ok
  | errNotFound
  | errForbidden
deriving DecidableEq, Repr

/-- Collection of calendar events visible to the free-busy interval collector:
pairs of (event UID, busy period). -/
structure CalendarCollection where
  events : List (String × Period)
deriving DecidableEq, Repr

/-- Result of `request.locateResource` on a free-busy source URL, folded with
the `exists()` / `isCalendarCollectionResource` tests of line 259. -/
inductive LocateResult where
  | missing
  | notCalendarCollection
  | calendarCollection (cc : CalendarCollection)
deriving DecidableEq, Repr

/-- Tri-bucket free-busy accumulator: "First list is BUSY, second
BUSY-TENTATIVE, third BUSY-UNAVAILABLE" (line 238). -/
structure FBInfo where
  busy : List Period
  tentative : List Period
  unavailable : List Period
deriving DecidableEq, Repr

/-- Modelled from the spec: the reply object built by the external
`report_common.buildFreeBusyResult`, "a free-busy report object using iTIP
method REPLY, carrying the organizer property, the matched attendee property,
the UID, and the three aggregated interval sequences". -/
structure FreeBusyResult where
  method : String
  organizer : Option String
  attendee : Option String
  uid : String
  busy : List Period
  tentative : List Period
  unavailable : List Period
deriving DecidableEq, Repr

/-- Modelled from the spec: constructor for the reply free-busy object
(`report_common.buildFreeBusyResult`, external to src/). -/
def buildFreeBusyResult (fbinfo : FBInfo) (organizer attendee : Option String)
    (uid : String) (method : String) : FreeBusyResult :=
  ⟨method, organizer, attendee, uid, fbinfo.busy, fbinfo.tentative, fbinfo.unavailable⟩

/-- Modelled from the spec: `report_common.processAvailabilityFreeBusy`
(external to src/) merges the inbox availability property's intervals into
FreeBusyInfo for the requested time range — "a working-hours mask layered
beneath calendar data", kept in the busy-unavailable bucket. -/
def processAvailabilityFreeBusy (periods : List Period) (fbinfo : FBInfo)
    (range : Period) : FBInfo :=
  { fbinfo with
    unavailable := fbinfo.unavailable ++ periods.filter (fun p => overlapsPeriod p range) }

/-- Modelled from the spec: one step of the external free-busy interval
collector `report_common.generateFreeBusyInfo` over the events of a single
collection — it accumulates the intervals matching the requested time range
into the busy bucket, never counting an event carrying the exclusion UID
("so the event being scheduled is never counted as busy against itself"),
and updates the running match counter.  Privacy redaction (the organizer,
same-user and remote arguments) affects only the detail of reported events,
not interval membership, and is abstracted away. -/
def collectEvents (range : Period) (excludeuid : Option String) :
    List (String × Period) → FBInfo × Nat → FBInfo × Nat
  | [], acc => acc
  | ev :: rest, acc =>
    if overlapsPeriod ev.2 range = true ∧ some ev.1 ≠ excludeuid then
      collectEvents range excludeuid rest
        ({ acc.1 with busy := acc.1.busy ++ [ev.2] }, acc.2 + 1)
    else
      collectEvents range excludeuid rest acc

/-- Modelled from the spec: the external collaborator
`report_common.generateFreeBusyInfo` ("Free-busy interval collector", §6). -/
def generateFreeBusyInfo (cc : CalendarCollection) (fbinfo : FBInfo)
    (range : Period) (matchtotal : Nat) (excludeuid : Option String) : FBInfo × Nat :=
  collectEvents range excludeuid cc.events (fbinfo, matchtotal)

/-- One per-recipient ResponseEntry of the ResponseSet
(`self.responses.add(cuaddr, status, reqstatus, calendar)`). -/
structure ResponseEntry where
  recipient : String
  status : RespStatus
  reqstatus : String
  calendar : Option FreeBusyResult := none
deriving DecidableEq, Repr

/-- Auto-response candidate queued at line 202:
`(recipient.principal, recipient.inbox, child)`. -/
structure AutoCandidate where
  principalURL : String
  inboxURL : String
  child : String
deriving DecidableEq, Repr

/-- One deferred auto-response dispatch registered by `reactor.callLater`
at line 138, carrying the candidate and the duplicated calendar snapshot. -/
structure ScheduledAutoResponse where
  candidate : AutoCandidate
  calendarSnapshot : CalendarObject
deriving DecidableEq, Repr

/-- Recipient of a scheduling message, with oracle fields giving the outcome
of every external call its delivery path performs:
`checkPrivileges` (inbox access check, line 107), `locateChild`
(`locateResource(childURL)`, line 148, returning the child resource handle),
`implicitResult` (`ImplicitProcessor.doImplicitProcessing`, lines 153-158,
returning `(processed, autoprocessed)`), `storeResult`
(`StoreCalendarObjectResource(...).run()`, lines 173-181), `annotateResult`
(the three `writeDeadProperty` calls, lines 192-198),
`calendarUserAddresses` (`principal.calendarUserAddresses()`, line 210),
`freeBusyURIs` (`principal.calendarFreeBusyURIs`, line 236), `availability`
(the inbox calendar-availability property, lines 242-245, `none` when the
property is absent), `locate` (resolution of each free-busy source URL,
line 258, folded with the existence and collection-type tests of line 259)
and `collectRaises` (a fault the interval collector raises on a given
source URL, if any). -/
structure Recipient where
  cuaddr : String
  inboxURL : String
  principalURL : String
  autoSchedule : Bool
  checkPrivileges : Except PyExc Unit
  locateChild : Except PyExc String
  implicitResult : Except PyExc (Bool × Bool)
  storeResult : Except PyExc Unit
  annotateResult : Except PyExc Unit
  calendarUserAddresses : Except PyExc (List String)
  freeBusyURIs : Except PyExc (List String)
  availability : Except PyExc (Option (List Period))
  locate : String → LocateResult
  collectRaises : String → Option PyExc

/-- Scheduler context handed to `ScheduleViaCalDAV`: the organizer, the
scheduling calendar object, the originator address, the free-busy time range
and exclusion UID, plus the auto-response executor's predicate
`iTipProcessor.canAutoRespond` (an external collaborator, supplied as a
function). -/
structure Scheduler where
  organizer : CalUser
  calendar : CalendarObject
  originatorCuaddr : String
  timeRange : Period
  excludeUID : Option String
  canAutoRespond : CalendarObject → Bool

abbrev Responses := List ResponseEntry

/-- Per-mechanism scheduling configuration read from
`config.Scheduling["CalDAV"]` (defaults in `stdconfig.py`: both domains
empty, no address patterns). -/
structure CalDAVSchedConfig where
  EmailDomain : String
  HTTPDomain : String
deriving DecidableEq, Repr

/-- Default `Scheduling.CalDAV` configuration from `stdconfig.py`
(lines 262-269): `EmailDomain = ""`, `HTTPDomain = ""`. -/
def defaultCalDAVSchedConfig : CalDAVSchedConfig :=
  { EmailDomain := "", HTTPDomain := "" }

/-- Python `str.split(sep)` for a one-character separator, over character
lists: every occurrence of the separator splits, the empty string yields
`[""]`, so the result is always non-empty. -/
def pySplitChar (sep : Char) : List Char → List (List Char)
  | [] => [[]]
  | c :: rest =>
    match pySplitChar sep rest with
    | [] => [[]]
    | g :: gs => if c = sep then [] :: g :: gs else (c :: g) :: gs

/-- Python `s.startswith(pre)`. -/
def pyStartsWith (s pre : String) : Bool :=
  pre.toList.isPrefixOf s.toList

/-- Python `s.endswith(suf)`. -/
def pyEndsWith (s suf : String) : Bool :=
  suf.toList.isSuffixOf s.toList

/-- Python `s[n:]`. -/
def pyDrop (s : String) (n : Nat) : String :=
  ⟨s.toList.drop n⟩

/-- Python `s.split(sep)[0]` for a one-character separator. -/
def pySplitHead (s : String) (sep : Char) : String :=
  ⟨(pySplitChar sep s.toList).headD []⟩

/-- Python truthiness of a string: non-empty. -/
def pyTruthy (s : String) : Bool :=
  !s.toList.isEmpty

/-- Embedding of `ScheduleViaCalDAV.matchCalendarUserAddress` (lines 69-90).
`fallback` is the inherited `DeliveryService.matchCalendarUserAddress`
(modelled from the spec: the "fallback pattern-matching contract shared by
all delivery mechanisms", configured regular-expression address patterns;
it is external to src/ and supplied as a function — with the default empty
`AddressPatterns` it returns `false` everywhere).  Python string semantics
are mirrored primitive by primitive: `cuaddr[7:]` is `pyDrop cuaddr 7`,
`s.split(x)[0]` is `pySplitHead s x`, `cuaddr.split(":")[0][2:]` is
`pyDrop (pySplitHead cuaddr ':') 2`, truthiness of a configured domain is
non-emptiness, and a branch whose inner suffix test fails falls through to
the final default match (line 90). -/
def matchCalendarUserAddress (cfg : CalDAVSchedConfig) (fallback : String → Bool)
    (cuaddr : String) : Bool :=
  if pyStartsWith cuaddr "mailto:" && pyTruthy cfg.EmailDomain then
    if pyEndsWith (pySplitHead (pyDrop cuaddr 7) '?') cfg.EmailDomain then true
    else fallback cuaddr
  else if (pyStartsWith cuaddr "http://" || pyStartsWith cuaddr "https://")
      && pyTruthy cfg.HTTPDomain then
    if pyEndsWith (pySplitHead (pyDrop (pySplitHead cuaddr ':') 2) '?') cfg.HTTPDomain then true
    else fallback cuaddr
  else if pyStartsWith cuaddr "/" then
    true
  else
    fallback cuaddr

/-- Embedding of `ScheduleViaCalDAV.generateResponse` (lines 140-204), the
per-recipient invite-delivery path.  Mutation of the caller's `responses`
and `autoresponses` lists is explicit state threading; the returned
`Except PyExc Bool` is the method's outcome: `.ok b` for `returnValue(b)`
(or falling off the end), `.error e` for an exception propagating to the
caller.  Faithful control flow: `locateResource(childURL)` (line 148) runs
outside any `try`; the `try` of line 151 catches only
`ImplicitProcessorException`; the `try` of line 171 is bare and catches
everything; the annotation calls of lines 192-198 run in the `else:` clause
of that `try`, hence outside its protection, but after the success entry of
line 189 was already appended. -/
def generateResponse (_sched : Scheduler) (r : Recipient)
    (responses : Responses) (autoresponses : List AutoCandidate) :
    Except PyExc Bool × Responses × List AutoCandidate :=
  match r.locateChild with
  | .error e => (.error e, responses, autoresponses)
  | .ok child =>
    match r.implicitResult with
    | .error (.implicitProcessorError msg) =>
      (.ok false,
       responses ++ [{ recipient := r.cuaddr, status := .errForbidden, reqstatus := msg }],
       autoresponses)
    | .error e => (.error e, responses, autoresponses)
    | .ok (processed, autoprocessed) =>
      if autoprocessed then
        (.ok true,
         responses ++ [{ recipient := r.cuaddr, status := .ok, reqstatus := "2.0;Success" }],
         autoresponses)
      else
        match r.storeResult with
        | .error _ =>
          (.ok false,
           responses ++
             [{ recipient := r.cuaddr, status := .errForbidden, reqstatus := "3.8;No authority" }],
           autoresponses)
        | .ok _ =>
          let responses2 :=
            responses ++ [{ recipient := r.cuaddr, status := .ok, reqstatus := "2.0;Success" }]
          match r.annotateResult with
          | .error e => (.error e, responses2, autoresponses)
          | .ok _ =>
            if !processed && r.autoSchedule then
              (.ok true, responses2,
               autoresponses ++ [{ principalURL := r.principalURL, inboxURL := r.inboxURL, child := child }])
            else
              (.ok true, responses2, autoresponses)

/-- Embedding of the per-source loop of
`ScheduleViaCalDAV.generateAttendeeFreeBusyResponse` (lines 255-274):
each free-busy source URL is located; a missing or non-calendar-collection
resource is skipped (`continue`, line 262); otherwise the external interval
collector accumulates into the running `FBInfo × matchtotal` accumulator,
or raises the fault the environment assigns to that URL. -/
def fbLoop (sched : Scheduler) (r : Recipient) :
    List String → FBInfo × Nat → Except PyExc (FBInfo × Nat)
  | [], acc => .ok acc
  | url :: rest, acc =>
    match r.locate url with
    | .missing => fbLoop sched r rest acc
    | .notCalendarCollection => fbLoop sched r rest acc
    | .calendarCollection cc =>
      match r.collectRaises url with
      | some e => .error e
      | none =>
        fbLoop sched r rest
          (generateFreeBusyInfo cc acc.1 sched.timeRange acc.2 sched.excludeUID)

/-- Embedding of `ScheduleViaCalDAV.generateAttendeeFreeBusyResponse`
(lines 232-286): fetch the recipient's free-busy set, start from an empty
tri-bucket `FBInfo`, merge the inbox availability property when present,
run the per-source loop, and build the `REPLY` free-busy result.  Any error
raised here propagates to `generateFreeBusyResponse`, whose bare `except:`
catches it. -/
def generateAttendeeFreeBusyResponse (sched : Scheduler) (r : Recipient)
    (organizerProp : Option String) (uid : String) (attendeeProp : Option String) :
    Except PyExc FreeBusyResult :=
  match r.freeBusyURIs with
  | .error e => .error e
  | .ok fbset =>
    match r.availability with
    | .error e => .error e
    | .ok avail =>
      let fbinfo : FBInfo := ⟨[], [], []⟩
      let fbinfo :=
        match avail with
        | some periods => processAvailabilityFreeBusy periods fbinfo sched.timeRange
        | none => fbinfo
      match fbLoop sched r fbset (fbinfo, 0) with
      | .error e => .error e
      | .ok acc =>
        .ok (buildFreeBusyResult acc.1 organizerProp attendeeProp uid "REPLY")

/-- Embedding of `ScheduleViaCalDAV.generateFreeBusyResponse` (lines
206-230).  Faithful control flow: the attendee-property extraction of lines
210-211 (`principal.calendarUserAddresses()` then
`calendar.getAttendeeProperty(cuas)`) runs BEFORE the `try` of line 215, so
an error there propagates to the caller; the `try` around
`generateAttendeeFreeBusyResponse` is bare and converts any aggregation
error into a forbidden `3.8;No authority` entry with `returnValue(False)`,
while success appends a `2.0;Success` entry carrying the reply calendar
with `returnValue(True)`. -/
def generateFreeBusyResponse (sched : Scheduler) (r : Recipient)
    (responses : Responses) (organizerProp : Option String) (uid : String) :
    Except PyExc Bool × Responses :=
  match r.calendarUserAddresses with
  | .error e => (.error e, responses)
  | .ok cuas =>
    let attendeeProp := getAttendeeProperty sched.calendar cuas
    match generateAttendeeFreeBusyResponse sched r organizerProp uid attendeeProp with
    | .error _ =>
      (.ok false,
       responses ++
         [{ recipient := r.cuaddr, status := .errForbidden, reqstatus := "3.8;No authority" }])
    | .ok fbresult =>
      (.ok true,
       responses ++
         [{ recipient := r.cuaddr, status := .ok, reqstatus := "2.0;Success",
            calendar := some fbresult }])

/-- Outcome of the access-control step of lines 105-120: the check is only
performed when the organizer is a `LocalCalendarUser`; `AccessDeniedError`
is caught and turns into a denial, any other exception from
`checkPrivileges` propagates. -/
inductive AccessOutcome where
  | allowed
  | denied
  | propagate (e : PyExc)
deriving DecidableEq, Repr

/-- Embedding of the access-control step of
`ScheduleViaCalDAV.generateSchedulingResponses` (lines 105-120). -/
def accessCheckStep (sched : Scheduler) (r : Recipient) : AccessOutcome :=
  match sched.organizer with
  | .localUser _ =>
    match r.checkPrivileges with
    | .ok _ => .allowed
    | .error .accessDenied => .denied
    | .error e => .propagate e
  | _ => .allowed

/-- Embedding of the per-recipient loop of
`ScheduleViaCalDAV.generateSchedulingResponses` (lines 100-126): access
check first (denial appends a NOT_FOUND `3.8;No authority` entry and
`continue`s), then dispatch to the free-busy or invite path.  An exception
propagating from the access check or from either delivery path aborts the
loop: remaining recipients are not processed. -/
def processRecipients (sched : Scheduler) (freebusy : Bool)
    (organizerProp : Option String) (uid : String) :
    List Recipient → Responses → List AutoCandidate →
    Except PyExc Unit × Responses × List AutoCandidate
  | [], responses, autos => (.ok (), responses, autos)
  | r :: rest, responses, autos =>
    match accessCheckStep sched r with
    | .propagate e => (.error e, responses, autos)
    | .denied =>
      processRecipients sched freebusy organizerProp uid rest
        (responses ++
          [{ recipient := r.cuaddr, status := .errNotFound, reqstatus := "3.8;No authority" }])
        autos
    | .allowed =>
      if freebusy then
        match generateFreeBusyResponse sched r responses organizerProp uid with
        | (.error e, responses2) => (.error e, responses2, autos)
        | (.ok _, responses2) =>
          processRecipients sched freebusy organizerProp uid rest responses2 autos
      else
        match generateResponse sched r responses autos with
        | (.error e, responses2, autos2) => (.error e, responses2, autos2)
        | (.ok _, responses2, autos2) =>
          processRecipients sched freebusy organizerProp uid rest responses2 autos2

/-- Embedding of `ScheduleViaCalDAV.generateSchedulingResponses` (lines
92-138): extract the organizer property and UID once, run the per-recipient
loop from empty response/candidate state, then perform the auto-response
phase of lines 128-138 — when candidates were collected but
`iTipProcessor.canAutoRespond` rejects the calendar they are all discarded,
and each retained candidate is registered for deferred execution
(`reactor.callLater`) with a duplicate of the scheduling calendar.  The
third component of the result is the list of deferred dispatches; when the
loop aborted with a propagating exception, the auto-response phase is never
reached and nothing is dispatched. -/
def generateSchedulingResponses (sched : Scheduler) (freebusy : Bool)
    (recipients : List Recipient) :
    Except PyExc Unit × Responses × List ScheduledAutoResponse :=
  let organizerProp := sched.calendar.organizerProp
  let uid := sched.calendar.uid
  match processRecipients sched freebusy organizerProp uid recipients [] [] with
  | (.error e, responses, _) => (.error e, responses, [])
  | (.ok _, responses, autos) =>
    let autos :=
      if autos.length != 0 && !(sched.canAutoRespond sched.calendar) then [] else autos
    (.ok (), responses,
     autos.map (fun c => { candidate := c, calendarSnapshot := duplicate sched.calendar }))

/-! ## Concrete fixtures used to evaluate the embedding on closed inputs -/

/-- Sample scheduling calendar object. -/
def sampleCalendar : CalendarObject :=
  { organizerProp := some "mailto:organizer@example.com"
    uid := "event-1"
    attendees := ["mailto:user1@example.com", "mailto:user2@example.com"] }

/-- Sample scheduler context with a local organizer. -/
def sampleScheduler : Scheduler :=
  { organizer := .localUser "/principals/users/organizer/"
    calendar := sampleCalendar
    originatorCuaddr := "mailto:organizer@example.com"
    timeRange := { startTime := 0, endTime := 100 }
    excludeUID := some "event-1"
    canAutoRespond := fun _ => true }

/-- Recipient whose every external call succeeds. -/
def recipientOne : Recipient :=
  { cuaddr := "mailto:user1@example.com"
    inboxURL := "/calendars/users/user1/inbox/"
    principalURL := "/principals/users/user1/"
    autoSchedule := false
    checkPrivileges := .ok ()
    locateChild := .ok "abc123.ics"
    implicitResult := .ok (false, false)
    storeResult := .ok ()
    annotateResult := .ok ()
    calendarUserAddresses := .ok ["mailto:user1@example.com"]
    freeBusyURIs := .ok []
    availability := .ok none
    locate := fun _ => .missing
    collectRaises := fun _ => none }

/-- Second well-behaved recipient. -/
def recipientTwo : Recipient :=
  { recipientOne with
    cuaddr := "mailto:user2@example.com"
    inboxURL := "/calendars/users/user2/inbox/"
    principalURL := "/principals/users/user2/"
    locateChild := .ok "def456.ics"
    calendarUserAddresses := .ok ["mailto:user2@example.com"] }

/-! ## Claim theorems -/

/-- C3: the claim asserts that `matchCalendarUserAddress` returns true for an
`http://` or `https://` address whenever the configured HTTP-domain suffix is
non-empty and the host portion of the address ends with that suffix, and in
particular that `"https://cal.example.com/x?y"` with `HTTPDomain`
`"example.com"` matches.  In the code (line 80) the candidate host is
computed as `cuaddr.split(":")[0][2:]` — the scheme minus its first two
characters, i.e. `"tp"` or `"tps"` — not the host, so the address falls
through to the pattern fallback, and with the default empty address-pattern
list the function returns `false`.  This theorem evaluates the embedded code
at the claim's own input, exhibiting both the result and the mis-extracted
host string. -/
theorem c3_httpDomain_eval :
    matchCalendarUserAddress { EmailDomain := "", HTTPDomain := "example.com" }
        (fun _ => false) "https://cal.example.com/x?y" = false ∧
    pyDrop (pySplitHead "https://cal.example.com/x?y" ':') 2 = "tps" :=
  ⟨by decide, by decide⟩

/-- C5: for a non-free-busy delivery, when the implicit processor reports
`autoprocessed = true`, `generateResponse` appends a single `2.0;Success`
entry with OK status for the recipient, returns accepted (`True`), leaves
the auto-response candidate list unchanged, and never consults the storage
oracle (the conclusion holds for every value of `storeResult`, which is
unconstrained here): no inbox item is stored. -/
theorem c5_autoprocessed_success (sched : Scheduler) (r : Recipient)
    (responses : Responses) (autos : List AutoCandidate)
    (child : String) (processed : Bool)
    (hloc : r.locateChild = .ok child)
    (himp : r.implicitResult = .ok (processed, true)) :
    generateResponse sched r responses autos =
      (.ok true,
       responses ++ [{ recipient := r.cuaddr, status := .ok, reqstatus := "2.0;Success" }],
       autos) := by
  simp [generateResponse, hloc, himp]

/-- Closed witness for C5. -/
theorem c5_autoprocessed_success_witness :
    generateResponse sampleScheduler
        { recipientOne with implicitResult := .ok (true, true), storeResult := .error (.other "would fail") }
        [] [] =
      (.ok true,
       [{ recipient := "mailto:user1@example.com", status := .ok, reqstatus := "2.0;Success" }],
       []) :=
  c5_autoprocessed_success sampleScheduler
    { recipientOne with implicitResult := .ok (true, true), storeResult := .error (.other "would fail") }
    [] [] "abc123.ics" true rfl rfl

/-- C7: for a non-free-busy delivery, when the implicit processor raises its
typed failure `ImplicitProcessorException` carrying message `msg`,
`generateResponse` appends a single forbidden-class entry whose
request-status string is `msg` itself, returns not-accepted (`False`), and
produces no auto-response candidate. -/
theorem c7_processor_failure (sched : Scheduler) (r : Recipient)
    (responses : Responses) (autos : List AutoCandidate)
    (child msg : String)
    (hloc : r.locateChild = .ok child)
    (himp : r.implicitResult = .error (.implicitProcessorError msg)) :
    generateResponse sched r responses autos =
      (.ok false,
       responses ++ [{ recipient := r.cuaddr, status := .errForbidden, reqstatus := msg }],
       autos) := by
  simp [generateResponse, hloc, himp]

/-- Closed witness for C7. -/
theorem c7_processor_failure_witness :
    generateResponse sampleScheduler
        { recipientOne with implicitResult := .error (.implicitProcessorError "5.1;Service unavailable") }
        [] [] =
      (.ok false,
       [{ recipient := "mailto:user1@example.com", status := .errForbidden,
          reqstatus := "5.1;Service unavailable" }],
       []) :=
  c7_processor_failure sampleScheduler
    { recipientOne with implicitResult := .error (.implicitProcessorError "5.1;Service unavailable") }
    [] [] "abc123.ics" "5.1;Service unavailable" rfl rfl

/-- C6: for a non-free-busy delivery whose inbox item is stored successfully
(implicit processing returned with `autoprocessed = false`, the store call
succeeded, and the subsequent property annotation completed), an
auto-response candidate `(principal, inbox, stored item)` is appended for
the recipient if and only if the processor reported `processed = false` and
the recipient's principal has auto-schedule enabled — and at most one
candidate is appended. -/
theorem c6_candidate_iff (sched : Scheduler) (r : Recipient)
    (responses : Responses) (autos : List AutoCandidate)
    (child : String) (processed : Bool)
    (hloc : r.locateChild = .ok child)
    (himp : r.implicitResult = .ok (processed, false))
    (hstore : r.storeResult = .ok ())
    (hann : r.annotateResult = .ok ()) :
    (generateResponse sched r responses autos).2.2 =
      autos ++
        (if processed = false ∧ r.autoSchedule = true then
          [{ principalURL := r.principalURL, inboxURL := r.inboxURL, child := child }]
        else []) := by
  cases processed <;> cases ha : r.autoSchedule <;>
    simp [generateResponse, hloc, himp, hstore, hann, ha]

/-- Closed witness for C6: with `processed = false` and auto-schedule
enabled, exactly one candidate is appended. -/
theorem c6_candidate_iff_witness :
    (generateResponse sampleScheduler { recipientOne with autoSchedule := true } [] []).2.2 =
      [{ principalURL := "/principals/users/user1/",
         inboxURL := "/calendars/users/user1/inbox/", child := "abc123.ics" }] := by
  have h := c6_candidate_iff sampleScheduler { recipientOne with autoSchedule := true }
    [] [] "abc123.ics" false rfl rfl rfl rfl
  simpa using h

/-- The free-busy source loop never reads the recipient's access-check
oracle. -/
theorem fbLoop_checkPrivileges_irrel (sched : Scheduler) (r : Recipient)
    (v : Except PyExc Unit) :
    ∀ (l : List String) (acc : FBInfo × Nat),
      fbLoop sched { r with checkPrivileges := v } l acc = fbLoop sched r l acc := by
  intro l
  induction l with
  | nil => intro acc; rfl
  | cons u rest ih =>
    intro acc
    cases h : r.locate u <;> simp [fbLoop, h, ih]

/-- The free-busy delivery path never reads the recipient's access-check
oracle. -/
theorem generateFreeBusyResponse_checkPrivileges_irrel (sched : Scheduler)
    (r : Recipient) (v : Except PyExc Unit) (responses : Responses)
    (organizerProp : Option String) (uid : String) :
    generateFreeBusyResponse sched { r with checkPrivileges := v } responses organizerProp uid =
      generateFreeBusyResponse sched r responses organizerProp uid := by
  simp only [generateFreeBusyResponse, generateAttendeeFreeBusyResponse,
    fbLoop_checkPrivileges_irrel]

/-- The invite delivery path never reads the recipient's access-check
oracle. -/
theorem generateResponse_checkPrivileges_irrel (sched : Scheduler)
    (r : Recipient) (v : Except PyExc Unit) (responses : Responses)
    (autos : List AutoCandidate) :
    generateResponse sched { r with checkPrivileges := v } responses autos =
      generateResponse sched r responses autos := rfl

/-- C4: when the organizer is a local calendar user and the access check on
the recipient's inbox is denied, the per-recipient loop appends exactly one
entry for that recipient with NOT_FOUND status and request-status
`3.8;No authority` and continues directly with the remaining recipients —
the equation holds for arbitrary values of the recipient's delivery oracles
(`implicitResult`, `storeResult`, the free-busy oracles, ...), so no
implicit-processing call and no storage happens for that recipient.  And
when the organizer is remote, no access check is performed: the loop's
result is invariant under any change to the recipient's `checkPrivileges`
oracle. -/
theorem c4_access_denied (sched : Scheduler) (freebusy : Bool)
    (organizerProp : Option String) (uid purl : String)
    (r : Recipient) (rest : List Recipient) (responses : Responses)
    (autos : List AutoCandidate)
    (horg : sched.organizer = .localUser purl)
    (hden : r.checkPrivileges = .error .accessDenied) :
    (processRecipients sched freebusy organizerProp uid (r :: rest) responses autos =
      processRecipients sched freebusy organizerProp uid rest
        (responses ++
          [{ recipient := r.cuaddr, status := .errNotFound, reqstatus := "3.8;No authority" }])
        autos)
    ∧ ∀ (sched2 : Scheduler) (v : Except PyExc Unit),
        sched2.organizer = .remoteUser →
        processRecipients sched2 freebusy organizerProp uid
            ({ r with checkPrivileges := v } :: rest) responses autos =
          processRecipients sched2 freebusy organizerProp uid (r :: rest) responses autos := by
  constructor
  · simp [processRecipients, accessCheckStep, horg, hden]
  · intro sched2 v horg2
    cases freebusy
    · simp only [processRecipients, accessCheckStep, horg2,
        generateResponse_checkPrivileges_irrel, Bool.false_eq_true, if_false]
    · simp only [processRecipients, accessCheckStep, horg2,
        generateFreeBusyResponse_checkPrivileges_irrel, if_true]

/-- Closed witness for C4: a concretely denied recipient yields exactly the
`3.8;No authority` NOT_FOUND entry and processing moves on to the second
recipient. -/
theorem c4_access_denied_witness :
    processRecipients sampleScheduler false (some "mailto:organizer@example.com") "event-1"
        [{ recipientOne with checkPrivileges := .error .accessDenied }, recipientTwo] [] [] =
      processRecipients sampleScheduler false (some "mailto:organizer@example.com") "event-1"
        [recipientTwo]
        [{ recipient := "mailto:user1@example.com", status := .errNotFound,
           reqstatus := "3.8;No authority" }]
        [] :=
  (c4_access_denied sampleScheduler false (some "mailto:organizer@example.com") "event-1"
    "/principals/users/organizer/"
    { recipientOne with checkPrivileges := .error .accessDenied }
    [recipientTwo] [] [] rfl rfl).1

/-- C2 counterexample: a recipient whose attendee-property extraction
(`principal.calendarUserAddresses()`, line 210 — it runs BEFORE the `try`
of line 215) raises.  Contrary to the claim, `generateFreeBusyResponse`
appends no `3.8;No authority` entry and does not return not-accepted: the
error propagates to the caller and the response list is left empty. -/
theorem c2_counterexample :
    generateFreeBusyResponse sampleScheduler
        { recipientOne with calendarUserAddresses := .error (.other "cua lookup failed") }
        [] (some "mailto:organizer@example.com") "event-1" =
      (.error (.other "cua lookup failed"), []) := rfl

/-- C2 (amended): any error raised during free-busy AGGREGATION
(`generateAttendeeFreeBusyResponse`) is caught by the bare `except:` of
line 223 and yields a forbidden-class `3.8;No authority` entry for the
recipient with `generateFreeBusyResponse` returning not-accepted; but an
error raised during extraction of the attendee property matching the
recipient (lines 210-211) occurs before that `try` block and propagates to
the caller with no entry appended. -/
theorem c2_amended (sched : Scheduler) (r : Recipient) (responses : Responses)
    (organizerProp : Option String) (uid : String) (cuas : List String) (e : PyExc)
    (hcua : r.calendarUserAddresses = .ok cuas)
    (hagg : generateAttendeeFreeBusyResponse sched r organizerProp uid
        (getAttendeeProperty sched.calendar cuas) = .error e) :
    generateFreeBusyResponse sched r responses organizerProp uid =
      (.ok false,
       responses ++
         [{ recipient := r.cuaddr, status := .errForbidden, reqstatus := "3.8;No authority" }]) := by
  simp [generateFreeBusyResponse, hcua, hagg]

/-- Closed witness for the amended C2: a recipient whose free-busy-set
lookup raises gets the forbidden `3.8;No authority` entry and a
not-accepted outcome. -/
theorem c2_amended_witness :
    generateFreeBusyResponse sampleScheduler
        { recipientOne with freeBusyURIs := .error (.other "fbset lookup failed") }
        [] (some "mailto:organizer@example.com") "event-1" =
      (.ok false,
       [{ recipient := "mailto:user1@example.com", status := .errForbidden,
          reqstatus := "3.8;No authority" }]) :=
  c2_amended sampleScheduler
    { recipientOne with freeBusyURIs := .error (.other "fbset lookup failed") }
    [] (some "mailto:organizer@example.com") "event-1"
    ["mailto:user1@example.com"] (.other "fbset lookup failed") rfl rfl

/-- A free-busy source set every member of which resolves to a missing or
non-calendar-collection resource contributes nothing: the loop succeeds
with its accumulator unchanged. -/
theorem fbLoop_skip_all (sched : Scheduler) (r : Recipient) :
    ∀ (fbset : List String) (acc : FBInfo × Nat),
      (∀ u ∈ fbset, r.locate u = .missing ∨ r.locate u = .notCalendarCollection) →
      fbLoop sched r fbset acc = .ok acc := by
  intro fbset
  induction fbset with
  | nil => intro acc _; rfl
  | cons u rest ih =>
    intro acc h
    rcases h u (List.mem_cons_self u rest) with h1 | h1 <;>
      simp [fbLoop, h1, ih acc (fun v hv => h v (List.mem_cons_of_mem u hv))]

/-- C10: a recipient of a free-busy request whose source set is empty or
contains only missing or non-calendar-collection locations, and whose
inbox carries no calendar-availability property, still aggregates
successfully: the recipient receives a `2.0;Success` entry carrying a
`REPLY` free-busy object whose busy, tentative and unavailable interval
sequences are all empty. -/
theorem c10_empty_aggregation_success (sched : Scheduler) (r : Recipient)
    (responses : Responses) (organizerProp : Option String) (uid : String)
    (fbset cuas : List String)
    (hcua : r.calendarUserAddresses = .ok cuas)
    (hfb : r.freeBusyURIs = .ok fbset)
    (hall : ∀ u ∈ fbset, r.locate u = .missing ∨ r.locate u = .notCalendarCollection)
    (hav : r.availability = .ok none) :
    ∃ res : FreeBusyResult,
      generateFreeBusyResponse sched r responses organizerProp uid =
        (.ok true,
         responses ++
           [{ recipient := r.cuaddr, status := .ok, reqstatus := "2.0;Success",
              calendar := some res }]) ∧
      res.method = "REPLY" ∧ res.busy = [] ∧ res.tentative = [] ∧ res.unavailable = [] := by
  refine ⟨buildFreeBusyResult ⟨[], [], []⟩ organizerProp
    (getAttendeeProperty sched.calendar cuas) uid "REPLY", ?_, rfl, rfl, rfl, rfl⟩
  simp [generateFreeBusyResponse, hcua, generateAttendeeFreeBusyResponse, hfb, hav,
    fbLoop_skip_all sched r fbset (⟨[], [], []⟩, 0) hall]

/-- Closed witness for C10: source set with one missing and one
non-calendar location, no availability property. -/
theorem c10_empty_aggregation_success_witness :
    ∃ res : FreeBusyResult,
      generateFreeBusyResponse sampleScheduler
          { recipientOne with
            freeBusyURIs := .ok ["/calendars/users/user1/gone/", "/calendars/users/user1/notes/"]
            locate := fun u =>
              if u = "/calendars/users/user1/notes/" then .notCalendarCollection else .missing }
          [] (some "mailto:organizer@example.com") "event-1" =
        (.ok true,
         [{ recipient := "mailto:user1@example.com", status := .ok, reqstatus := "2.0;Success",
            calendar := some res }]) ∧
      res.method = "REPLY" ∧ res.busy = [] ∧ res.tentative = [] ∧ res.unavailable = [] := by
  refine c10_empty_aggregation_success sampleScheduler _ []
    (some "mailto:organizer@example.com") "event-1"
    ["/calendars/users/user1/gone/", "/calendars/users/user1/notes/"]
    ["mailto:user1@example.com"] rfl rfl ?_ rfl
  intro u hu
  simp only [List.mem_cons, List.not_mem_nil, or_false] at hu
  rcases hu with rfl | rfl
  · left; rfl
  · right; rfl

/-- Every event of a collection that overlaps the requested range and does
not carry the exclusion UID ends up in the busy bucket of the collector's
accumulator; intervals already in the busy bucket are preserved. -/
theorem collectEvents_busy_mem (range : Period) (excl : Option String) :
    ∀ (events : List (String × Period)) (acc : FBInfo × Nat) (euid : String) (p : Period),
      (((euid, p) ∈ events ∧ overlapsPeriod p range = true ∧ some euid ≠ excl) ∨
        p ∈ acc.1.busy) →
      p ∈ (collectEvents range excl events acc).1.busy := by
  intro events
  induction events with
  | nil =>
    intro acc euid p h
    rcases h with ⟨hm, _, _⟩ | hacc
    · cases hm
    · exact hacc
  | cons ev rest ih =>
    intro acc euid p h
    unfold collectEvents
    split
    case isTrue hcond =>
      apply ih _ euid p
      rcases h with ⟨hm, ho, hne⟩ | hacc
      · rcases List.mem_cons.mp hm with heq | hm2
        · right
          rw [← heq]
          simp
        · left; exact ⟨hm2, ho, hne⟩
      · right
        simp only [List.mem_append]
        exact Or.inl hacc
    case isFalse hcond =>
      apply ih _ euid p
      rcases h with ⟨hm, ho, hne⟩ | hacc
      · rcases List.mem_cons.mp hm with heq | hm2
        · rw [← heq] at hcond
          exact absurd ⟨ho, hne⟩ hcond
        · left; exact ⟨hm2, ho, hne⟩
      · right; exact hacc

/-- C8: during free-busy aggregation (a) a source location resolving to a
missing resource and (b) one resolving to a non-calendar-collection
resource are skipped silently — the loop equals the loop on the remaining
sources, without failing; (c) a valid calendar-collection source
contributes every one of its events that overlaps the query range and does
not carry the exclusion UID to the busy bucket; and (d) end to end, a
source set with one missing collection and one valid collection holding a
busy interval inside the query range yields a `2.0;Success` response entry
whose reply free-busy object's busy bucket contains that interval. -/
theorem c8_skip_and_contribute (sched : Scheduler) (r : Recipient) :
    (∀ (url : String) (rest : List String) (acc : FBInfo × Nat),
        (r.locate url = .missing ∨ r.locate url = .notCalendarCollection) →
        fbLoop sched r (url :: rest) acc = fbLoop sched r rest acc)
    ∧ (∀ (url : String) (rest : List String) (acc : FBInfo × Nat) (cc : CalendarCollection),
        r.locate url = .calendarCollection cc → r.collectRaises url = none →
        fbLoop sched r (url :: rest) acc =
          fbLoop sched r rest
            (generateFreeBusyInfo cc acc.1 sched.timeRange acc.2 sched.excludeUID))
    ∧ (∀ (cc : CalendarCollection) (fb : FBInfo) (n : Nat) (euid : String) (p : Period),
        (euid, p) ∈ cc.events → overlapsPeriod p sched.timeRange = true →
        some euid ≠ sched.excludeUID →
        p ∈ (generateFreeBusyInfo cc fb sched.timeRange n sched.excludeUID).1.busy)
    ∧ (∀ (organizerProp : Option String) (uid u1 u2 : String) (cc : CalendarCollection)
        (euid : String) (p : Period) (responses : Responses) (cuas : List String),
        r.calendarUserAddresses = .ok cuas →
        r.freeBusyURIs = .ok [u1, u2] →
        r.locate u1 = .missing →
        r.locate u2 = .calendarCollection cc →
        r.collectRaises u2 = none →
        r.availability = .ok none →
        (euid, p) ∈ cc.events → overlapsPeriod p sched.timeRange = true →
        some euid ≠ sched.excludeUID →
        ∃ res : FreeBusyResult,
          generateFreeBusyResponse sched r responses organizerProp uid =
            (.ok true,
             responses ++
               [{ recipient := r.cuaddr, status := .ok, reqstatus := "2.0;Success",
                  calendar := some res }]) ∧
          p ∈ res.busy) := by
  refine ⟨?_, ?_, ?_, ?_⟩
  · intro url rest acc h
    rcases h with h1 | h1 <;> simp [fbLoop, h1]
  · intro url rest acc cc h1 h2
    simp [fbLoop, h1, h2]
  · intro cc fb n euid p hm ho hne
    exact collectEvents_busy_mem sched.timeRange sched.excludeUID cc.events (fb, n) euid p
      (Or.inl ⟨hm, ho, hne⟩)
  · intro organizerProp uid u1 u2 cc euid p responses cuas hcua hfb h1 h2 hcr hav hm ho hne
    refine ⟨buildFreeBusyResult
        (generateFreeBusyInfo cc ⟨[], [], []⟩ sched.timeRange 0 sched.excludeUID).1
        organizerProp (getAttendeeProperty sched.calendar cuas) uid "REPLY", ?_, ?_⟩
    · simp [generateFreeBusyResponse, hcua, generateAttendeeFreeBusyResponse, hfb, hav,
        fbLoop, h1, h2, hcr]
    · exact collectEvents_busy_mem sched.timeRange sched.excludeUID cc.events
        (⟨[], [], []⟩, 0) euid p (Or.inl ⟨hm, ho, hne⟩)

/-- Closed witness for C8: a two-source set (one missing, one valid with a
busy event inside the range) produces a success entry whose busy bucket
holds the interval. -/
theorem c8_skip_and_contribute_witness :
    ∃ res : FreeBusyResult,
      generateFreeBusyResponse sampleScheduler
          { recipientOne with
            freeBusyURIs := .ok ["/calendars/users/user1/gone/", "/calendars/users/user1/calendar/"]
            locate := fun u =>
              if u = "/calendars/users/user1/calendar/" then
                .calendarCollection ⟨[("other-event", ⟨10, 20⟩)]⟩
              else .missing }
          [] (some "mailto:organizer@example.com") "event-1" =
        (.ok true,
         [{ recipient := "mailto:user1@example.com", status := .ok, reqstatus := "2.0;Success",
            calendar := some res }]) ∧
      Period.mk 10 20 ∈ res.busy := by
  refine (c8_skip_and_contribute sampleScheduler _).2.2.2
    (some "mailto:organizer@example.com") "event-1"
    "/calendars/users/user1/gone/" "/calendars/users/user1/calendar/"
    ⟨[("other-event", ⟨10, 20⟩)]⟩ "other-event" ⟨10, 20⟩ []
    ["mailto:user1@example.com"] rfl rfl ?_ ?_ rfl rfl ?_ (by decide) (by decide)
  · rfl
  · rfl
  · exact List.mem_cons_self _ _

/-- C9: once the per-recipient loop has completed successfully with
candidate list `autos`, the orchestrator's auto-response phase behaves as
claimed: if candidates were collected but the auto-response executor's
predicate (`iTipProcessor.canAutoRespond`) rejects the scheduling calendar,
every candidate is discarded and nothing is dispatched; if the predicate
accepts, each retained candidate is registered for deferred execution
exactly once (the dispatch list is exactly the candidate list, in order),
paired with a duplicate (snapshot) of the scheduling calendar.  Dispatches
are computed only from the final state of the completed loop — the
embedding produces them after `processRecipients` returns, mirroring
`reactor.callLater` registration after the loop of lines 100-126. -/
theorem c9_auto_response_dispatch (sched : Scheduler) (freebusy : Bool)
    (recipients : List Recipient) (resps : Responses) (autos : List AutoCandidate)
    (h : processRecipients sched freebusy sched.calendar.organizerProp sched.calendar.uid
        recipients [] [] = (.ok (), resps, autos)) :
    (autos ≠ [] → sched.canAutoRespond sched.calendar = false →
      (generateSchedulingResponses sched freebusy recipients).2.2 = [])
    ∧ (sched.canAutoRespond sched.calendar = true →
      (generateSchedulingResponses sched freebusy recipients).2.2 =
        autos.map (fun c => { candidate := c, calendarSnapshot := duplicate sched.calendar }))
    ∧ (autos = [] → (generateSchedulingResponses sched freebusy recipients).2.2 = []) := by
  refine ⟨?_, ?_, ?_⟩
  · intro h1 h2
    simp [generateSchedulingResponses, h, h1, h2]
  · intro h2
    simp [generateSchedulingResponses, h, h2]
  · intro h1
    subst h1
    simp [generateSchedulingResponses, h]

/-- Closed witness for C9: one auto-schedule recipient yields exactly one
deferred dispatch carrying the calendar snapshot. -/
theorem c9_auto_response_dispatch_witness :
    (generateSchedulingResponses sampleScheduler false
        [{ recipientOne with autoSchedule := true }]).2.2 =
      [{ candidate := { principalURL := "/principals/users/user1/",
                        inboxURL := "/calendars/users/user1/inbox/", child := "abc123.ics" },
         calendarSnapshot := sampleCalendar }] := by
  have h := (c9_auto_response_dispatch sampleScheduler false
    [{ recipientOne with autoSchedule := true }]
    [{ recipient := "mailto:user1@example.com", status := .ok, reqstatus := "2.0;Success" }]
    [{ principalURL := "/principals/users/user1/",
       inboxURL := "/calendars/users/user1/inbox/", child := "abc123.ics" }]
    rfl).2.1 rfl
  simpa using h

/-- C1 counterexample: in a two-recipient non-free-busy delivery where the
first recipient's resource location (`locateResource(childURL)`, line 148 —
outside every `try`) raises, the orchestrator appends NO response entry at
all (instead of one per recipient) and the exception propagates, so the
second recipient is never processed. -/
theorem c1_counterexample :
    (generateSchedulingResponses sampleScheduler false
        [{ recipientOne with locateChild := .error (.other "locate failed") },
         recipientTwo]).2.1 = [] ∧
    (generateSchedulingResponses sampleScheduler false
        [{ recipientOne with locateChild := .error (.other "locate failed") },
         recipientTwo]).1 = .error (.other "locate failed") :=
  ⟨rfl, rfl⟩

/-- The access check raises at most its handled exception class
(`AccessDeniedError`, the only one caught at line 108). -/
def handledAccess (r : Recipient) : Prop :=
  ∀ e, r.checkPrivileges = .error e → e = .accessDenied

/-- The invite path raises only handled exceptions: resource location and
annotation (which run outside every `try`) succeed, and the implicit
processor fails, if at all, with its typed `ImplicitProcessorException`
(the only class caught at line 159).  The store call is unconstrained —
its `try` is bare and catches everything. -/
def handledInvite (r : Recipient) : Prop :=
  (∃ child, r.locateChild = .ok child) ∧
  (∀ e, r.implicitResult = .error e → ∃ msg, e = .implicitProcessorError msg) ∧
  r.annotateResult = .ok ()

/-- The free-busy path raises only handled exceptions: the attendee-address
lookup of line 210 (which runs before the `try` of line 215) succeeds.
Aggregation itself is unconstrained — its `try` is bare and catches
everything. -/
def handledFreeBusy (r : Recipient) : Prop :=
  ∃ cuas, r.calendarUserAddresses = .ok cuas

/-- With a handled access check, the access step never propagates. -/
theorem accessCheckStep_not_propagate (sched : Scheduler) (r : Recipient)
    (hacc : handledAccess r) (e : PyExc) :
    accessCheckStep sched r ≠ .propagate e := by
  unfold accessCheckStep
  cases horg : sched.organizer with
  | localUser purl =>
    cases hc : r.checkPrivileges with
    | ok u => simp
    | error e2 =>
      have h2 := hacc e2 hc
      subst h2
      simp
  | remoteUser => simp
  | otherUser => simp

/-- A free-busy delivery with a handled extraction appends exactly one
entry, keyed by the recipient's address, and returns without propagating. -/
theorem generateFreeBusyResponse_shape (sched : Scheduler) (r : Recipient)
    (responses : Responses) (organizerProp : Option String) (uid : String)
    (h : handledFreeBusy r) :
    ∃ (b : Bool) (entry : ResponseEntry),
      generateFreeBusyResponse sched r responses organizerProp uid =
        (.ok b, responses ++ [entry]) ∧ entry.recipient = r.cuaddr := by
  obtain ⟨cuas, hcua⟩ := h
  cases hagg : generateAttendeeFreeBusyResponse sched r organizerProp uid
      (getAttendeeProperty sched.calendar cuas) with
  | error e =>
    exact ⟨false,
      { recipient := r.cuaddr, status := .errForbidden, reqstatus := "3.8;No authority" },
      by simp [generateFreeBusyResponse, hcua, hagg], rfl⟩
  | ok fb =>
    exact ⟨true,
      { recipient := r.cuaddr, status := .ok, reqstatus := "2.0;Success", calendar := some fb },
      by simp [generateFreeBusyResponse, hcua, hagg], rfl⟩

/-- An invite delivery with handled exceptions appends exactly one entry,
keyed by the recipient's address, and returns without propagating. -/
theorem generateResponse_shape (sched : Scheduler) (r : Recipient)
    (responses : Responses) (autos : List AutoCandidate)
    (h : handledInvite r) :
    ∃ (b : Bool) (entry : ResponseEntry) (autos2 : List AutoCandidate),
      generateResponse sched r responses autos =
        (.ok b, responses ++ [entry], autos2) ∧ entry.recipient = r.cuaddr := by
  obtain ⟨⟨child, hloc⟩, himp, hann⟩ := h
  cases himpl : r.implicitResult with
  | error e =>
    obtain ⟨msg, rfl⟩ := himp e himpl
    exact ⟨false,
      { recipient := r.cuaddr, status := .errForbidden, reqstatus := msg }, autos,
      by simp [generateResponse, hloc, himpl], rfl⟩
  | ok pr =>
    obtain ⟨processed, autoprocessed⟩ := pr
    cases autoprocessed with
    | true =>
      exact ⟨true,
        { recipient := r.cuaddr, status := .ok, reqstatus := "2.0;Success" }, autos,
        by simp [generateResponse, hloc, himpl], rfl⟩
    | false =>
      cases hst : r.storeResult with
      | error e =>
        exact ⟨false,
          { recipient := r.cuaddr, status := .errForbidden, reqstatus := "3.8;No authority" },
          autos, by simp [generateResponse, hloc, himpl, hst], rfl⟩
      | ok u =>
        cases processed with
        | true =>
          exact ⟨true,
            { recipient := r.cuaddr, status := .ok, reqstatus := "2.0;Success" }, autos,
            by simp [generateResponse, hloc, himpl, hst, hann], rfl⟩
        | false =>
          cases hasch : r.autoSchedule with
          | true =>
            exact ⟨true,
              { recipient := r.cuaddr, status := .ok, reqstatus := "2.0;Success" },
              autos ++
                [{ principalURL := r.principalURL, inboxURL := r.inboxURL, child := child }],
              by simp [generateResponse, hloc, himpl, hst, hann, hasch], rfl⟩
          | false =>
            exact ⟨true,
              { recipient := r.cuaddr, status := .ok, reqstatus := "2.0;Success" }, autos,
              by simp [generateResponse, hloc, himpl, hst, hann, hasch], rfl⟩

/-- When every recipient raises only handled exceptions, the loop completes
and appends exactly one entry per recipient, in order, keyed by address. -/
theorem processRecipients_total (sched : Scheduler) (freebusy : Bool)
    (organizerProp : Option String) (uid : String) :
    ∀ (recipients : List Recipient) (responses : Responses) (autos : List AutoCandidate),
      (∀ r ∈ recipients,
        handledAccess r ∧ (if freebusy then handledFreeBusy r else handledInvite r)) →
      (processRecipients sched freebusy organizerProp uid recipients responses autos).1 =
        .ok () ∧
      (processRecipients sched freebusy organizerProp uid recipients responses autos).2.1.map
          (fun en => en.recipient) =
        responses.map (fun en => en.recipient) ++ recipients.map (fun rc => rc.cuaddr) := by
  intro recipients
  induction recipients with
  | nil => intro responses autos _; simp [processRecipients]
  | cons r rest ih =>
    intro responses autos h
    obtain ⟨hacc, hdel⟩ := h r (List.mem_cons_self r rest)
    have hrest := fun r2 h2 => h r2 (List.mem_cons_of_mem r h2)
    cases hstep : accessCheckStep sched r with
    | propagate e => exact absurd hstep (accessCheckStep_not_propagate sched r hacc e)
    | denied =>
      have hstepEq :
          processRecipients sched freebusy organizerProp uid (r :: rest) responses autos =
            processRecipients sched freebusy organizerProp uid rest
              (responses ++
                [{ recipient := r.cuaddr, status := .errNotFound,
                   reqstatus := "3.8;No authority" }])
              autos := by
        simp [processRecipients, hstep]
      have hih := ih (responses ++
        [{ recipient := r.cuaddr, status := .errNotFound, reqstatus := "3.8;No authority" }])
        autos hrest
      rw [hstepEq]
      exact ⟨hih.1, by rw [hih.2]; simp⟩
    | allowed =>
      cases freebusy with
      | true =>
        obtain ⟨b, entry, heq, hrec⟩ :=
          generateFreeBusyResponse_shape sched r responses organizerProp uid (by simpa using hdel)
        have hstepEq :
            processRecipients sched true organizerProp uid (r :: rest) responses autos =
              processRecipients sched true organizerProp uid rest (responses ++ [entry]) autos := by
          simp [processRecipients, hstep, heq]
        have hih := ih (responses ++ [entry]) autos hrest
        rw [hstepEq]
        exact ⟨hih.1, by rw [hih.2]; simp [hrec]⟩
      | false =>
        obtain ⟨b, entry, autos2, heq, hrec⟩ :=
          generateResponse_shape sched r responses autos (by simpa using hdel)
        have hstepEq :
            processRecipients sched false organizerProp uid (r :: rest) responses autos =
              processRecipients sched false organizerProp uid rest (responses ++ [entry]) autos2 := by
          simp [processRecipients, hstep, heq]
        have hih := ih (responses ++ [entry]) autos2 hrest
        rw [hstepEq]
        exact ⟨hih.1, by rw [hih.2]; simp [hrec]⟩

/-- C1 (amended): the orchestrator appends exactly one response entry per
input recipient — keyed by the recipient's address, in input order — and
completes without propagating, PROVIDED each recipient's path raises only
the exception classes the code actually handles: `AccessDeniedError` in
the access check, `ImplicitProcessorException` from the implicit processor,
anything at all from inbox storage and from free-busy aggregation (their
`try`s are bare).  An exception at the unprotected points — resource
location (line 148), post-storage annotation (lines 192-198), or
attendee-property extraction (lines 210-211) — propagates instead, leaves
no entry for that recipient, and aborts processing of subsequent
recipients (see the counterexample). -/
theorem c1_one_entry_per_recipient (sched : Scheduler) (freebusy : Bool)
    (recipients : List Recipient)
    (h : ∀ r ∈ recipients,
      handledAccess r ∧ (if freebusy then handledFreeBusy r else handledInvite r)) :
    (generateSchedulingResponses sched freebusy recipients).1 = .ok () ∧
    (generateSchedulingResponses sched freebusy recipients).2.1.map
        (fun en => en.recipient) =
      recipients.map (fun rc => rc.cuaddr) := by
  have hmain := processRecipients_total sched freebusy sched.calendar.organizerProp
    sched.calendar.uid recipients [] [] h
  rcases hp : processRecipients sched freebusy sched.calendar.organizerProp
      sched.calendar.uid recipients [] [] with ⟨outcome, resps, autos⟩
  rw [hp] at hmain
  have h1 : outcome = .ok () := hmain.1
  have h2 : resps.map (fun en => en.recipient) = recipients.map (fun rc => rc.cuaddr) := by
    simpa using hmain.2
  subst h1
  simp [generateSchedulingResponses, hp, h2]

/-- Closed witness for the amended C1: two well-behaved recipients yield
exactly two entries, in order. -/
theorem c1_one_entry_per_recipient_witness :
    (generateSchedulingResponses sampleScheduler false [recipientOne, recipientTwo]).1 =
      .ok () ∧
    (generateSchedulingResponses sampleScheduler false [recipientOne, recipientTwo]).2.1.map
        (fun en => en.recipient) =
      [recipientOne, recipientTwo].map (fun rc => rc.cuaddr) := by
  refine c1_one_entry_per_recipient sampleScheduler false [recipientOne, recipientTwo] ?_
  intro r hr
  simp only [List.mem_cons, List.not_mem_nil, or_false] at hr
  rcases hr with rfl | rfl <;>
    · refine ⟨(fun e he => nomatch he), ?_⟩
      show handledInvite _
      exact And.intro ⟨_, rfl⟩ (And.intro (fun e he => nomatch he) rfl)

end ScheduleViaCalDAV
